import Mathlib

/-!
Verification of the nova-verifier lowering pass (`src/lower.rs`).

The development shallowly embeds the Rust code of `lower.rs` into Lean:

* `toml::Spanned<T>` becomes the structure `Spanned` (start/end byte offsets
  plus a value; the field `end` is renamed `stop` because `end` is a Lean
  keyword).
* The diagnostic `Context` of the crate is embedded as the list of
  diagnostics emitted so far; every `context.error(..)/.help(..)...emit()`
  call site appends one `Diagnostic` record.
* Rust control flow is made explicit: a function that can `return Err(())`,
  return `Ok(v)` or `panic!` returns a `Res` value paired with the updated
  context.  `unreachable!()` is `Res.panic "internal error: entered
  unreachable code"` (the message Rust uses), a bare `panic!()` is
  `Res.panic "explicit panic"`.
* `f32` values are only ever stored and moved by the lowered code, never
  computed with, so they are carried as `Rat` (which has decidable
  equality); `u8`/`u16` indices become `Nat`.
* The lower IR types (`index::ConfigFile` etc.) and `MAX_STATES` live in
  the external `nova_software_common` crate, which is not part of this
  repository; they are modelled from the spec (§3 Lower IR) and from how
  `lower.rs` constructs them.  `MAX_STATES` is passed to `verify` as an
  explicit parameter.
-/

/-- f32 values are pure payload in the lowering pass (stored, cloned,
never compared or computed with), so they are modelled by `Rat`. -/
abbrev F32 := Rat

/-- A byte-offset span into the source, as produced by
`Span::from_spanned` (start and end offset of a `toml::Spanned`). -/
structure Span where
  start : Nat
  stop : Nat
deriving DecidableEq, Repr

/-- Embeds `toml::Spanned<T>`: a value together with its source span.
`end` is a Lean keyword, so the end offset is called `stop`. -/
structure Spanned (α : Type) where
  start : Nat
  stop : Nat
  val : α
deriving DecidableEq, Repr

/-- Embeds `Span::from_spanned(context, s)`. -/
def Span.from_spanned {α : Type} (s : Spanned α) : Span :=
  ⟨s.start, s.stop⟩

/-- Diagnostic severities used by `lower.rs` (`context.error` and
`context.help`). -/
inductive Level where
  | error
  | help
deriving DecidableEq, Repr

/-- One emitted diagnostic: severity, message, optional primary span with
optional label (`set_primary_span` attaches a label,
`set_primary_span_no_msg` does not), and further labelled spans
(`span_label` attaches a label, `add_span` does not). -/
structure Diagnostic where
  level : Level
  message : String
  primary : Option (Span × Option String)
  labels : List (Span × Option String)
deriving DecidableEq, Repr

/-- The diagnostic context of one lowering phase: the ordered list of
diagnostics emitted so far.  `emit()` appends to it. -/
abbrev Context := List Diagnostic

/-- Outcome of a fallible Rust function: `Ok(v)`, `Err(())` (after
emitting diagnostics into the context), or a process panic. -/
inductive Res (α : Type) where
  | ok : α → Res α
  | err : Res α
  | panic : String → Res α
deriving DecidableEq, Repr

/-- Returns `true` exactly on `Res.ok`. -/
def Res.isOk {α : Type} : Res α → Bool
  | .ok _ => true
  | .err => false
  | .panic _ => false

/-! ### Lower IR (`nova_software_common::index`)

Modelled from the spec: the `nova_software_common` crate is an external
collaborator not contained in this repository.  The spec (§3 "Lower IR")
describes `ConfigFile { default_state: Nat, states }`,
`State { checks, commands, timeout }`,
`Check { data: CheckData, transition: Option<StateTransition> }`,
`Command { object: CommandObject, delay: Seconds }`; the constructor names
below are the ones `lower.rs` uses. -/


namespace index

/-- Modelled from the spec: `common::FloatCondition`. -/
inductive FloatCondition where
  | GreaterThan : F32 → FloatCondition
  | LessThan : F32 → FloatCondition
  /-- fields `upper_bound`, `lower_bound` in this order -/
  | Between : F32 → F32 → FloatCondition
deriving DecidableEq, Repr

/-- Modelled from the spec: `common::NativeFlagCondition`. -/
structure NativeFlagCondition where
  val : Bool
deriving DecidableEq, Repr

/-- Modelled from the spec: `common::PyroContinuityCondition`. -/
structure PyroContinuityCondition where
  val : Bool
deriving DecidableEq, Repr

/-- Modelled from the spec: `common::CheckData`, tagged by check kind and
condition shape. -/
inductive CheckData where
  | ApogeeFlag : NativeFlagCondition → CheckData
  | Altitude : FloatCondition → CheckData
  | Pyro1Continuity : PyroContinuityCondition → CheckData
  | Pyro2Continuity : PyroContinuityCondition → CheckData
  | Pyro3Continuity : PyroContinuityCondition → CheckData
deriving DecidableEq, Repr

/-- Modelled from the spec: `common::index::StateTransition`, mutually
exclusive transition/abort target. -/
inductive StateTransition where
  | Transition : Nat → StateTransition
  | Abort : Nat → StateTransition
deriving DecidableEq, Repr

/-- Modelled from the spec: `common::index::Check`
(`index::Check::new(data, transition)`). -/
structure Check where
  data : CheckData
  transition : Option StateTransition
deriving DecidableEq, Repr

/-- Modelled from the spec: `common::CommandObject`, exactly one payload
variant. -/
inductive CommandObject where
  | Pyro1 : Bool → CommandObject
  | Pyro2 : Bool → CommandObject
  | Pyro3 : Bool → CommandObject
  | DataRate : Nat → CommandObject
  | Beacon : Bool → CommandObject
deriving DecidableEq, Repr

/-- Modelled from the spec: `common::Seconds`. -/
structure Seconds where
  val : F32
deriving DecidableEq, Repr

/-- Modelled from the spec: `common::index::Command`. -/
structure Command where
  object : CommandObject
  delay : Seconds
deriving DecidableEq, Repr

/-- Modelled from the spec: the lower `Timeout`; `lower.rs` never
constructs one (every lowered state gets `timeout: None`). -/
structure Timeout where
  seconds : F32
  transition : Nat
deriving DecidableEq, Repr

/-- Modelled from the spec: `common::index::State`
(`State::new(checks, commands, timeout)`); capacity bounds of the
`heapless::Vec` fields are not modelled (no claim depends on them). -/
structure State where
  checks : List Check
  commands : List Command
  timeout : Option Timeout
deriving DecidableEq, Repr

/-- Modelled from the spec: `common::index::ConfigFile`. -/
structure ConfigFile where
  default_state : Nat
  states : List State
deriving DecidableEq, Repr

end index

/-! ### Upper IR (`src/upper.rs`) -/

namespace upper

/-- Embeds `upper::Timeout`. -/
structure Timeout where
  seconds : Option (Spanned F32)
  transition : Option (Spanned String)
deriving DecidableEq, Repr

/-- Embeds `upper::Check`; the `check` field names the check kind. -/
structure Check where
  name : Spanned String
  check : Spanned String
  transition : Option (Spanned String)
  abort : Option (Spanned String)
  greater_than : Option (Spanned F32)
  upper_bound : Option (Spanned F32)
  lower_bound : Option (Spanned F32)
  flag : Option (Spanned String)
deriving DecidableEq, Repr

/-- Embeds `upper::Command`; `TomlBool` is carried as `Bool`, `u16` as `Nat`.
(`upper.rs` spells the fifth field `becan`; `lower.rs`, the code under
verification, accesses it as `beacon`, which is the name used here.) -/
structure Command where
  pyro1 : Option (Spanned Bool)
  pyro2 : Option (Spanned Bool)
  pyro3 : Option (Spanned Bool)
  data_rate : Option (Spanned Nat)
  beacon : Option (Spanned Bool)
  delay : Option (Spanned F32)
deriving DecidableEq, Repr

/-- Embeds `upper::State`. -/
structure State where
  name : Spanned String
  timeout : Option (Spanned Timeout)
  checks : List (Spanned Check)
  commands : List (Spanned Command)
deriving DecidableEq, Repr

/-- Embeds `upper::ConfigFile`. -/
structure ConfigFile where
  default_state : Option (Spanned String)
  states : Spanned (List (Spanned State))
deriving DecidableEq, Repr

end upper

/-! ### The name table (`Temp`, `lower.rs` lines 12-44) -/

/-- The lookup function built by `Temp::new`'s
`states.iter().enumerate().map(..).collect::<HashMap<_,_>>()`: inserting
`(name, i)` in declaration order into a `HashMap`, a later state with the
same name overwrites an earlier one, so lookup returns the index of the
last declaration carrying the name.  `i` is the running enumeration
index. -/
def tempFind : List (Spanned upper.State) → Nat → String → Option Nat
  | [], _, _ => none
  | s :: rest, i, n =>
    match tempFind rest (i + 1) n with
    | some v => some v
    | none => if s.val.name.val = n then some i else none

/-- Embeds `Temp`: the state-name to state-index map (a `StateIndex` is a
validated `u8` position of a declared state, carried as `Nat`). -/
structure Temp where
  find : String → Option Nat

/-- Embeds `Temp::new` (`lower.rs` lines 15-29).  The `u8` conversion
`i.try_into().unwrap()` is in range whenever the state-count gate has
passed and is not modelled separately. -/
def Temp.new (states : List (Spanned upper.State)) : Temp :=
  ⟨tempFind states 0⟩

/-- Embeds `Temp::get_index` (`lower.rs` lines 31-43): resolve a state name,
emitting the reference error on failure. -/
def Temp.get_index (temp : Temp) (name : Spanned String) (ctx : Context) :
    Res Nat × Context :=
  match temp.find name.val with
  | some v => (.ok v, ctx)
  | none =>
    (.err, ctx ++ [{ level := .error
                     message := "state not found `" ++ name.val ++ "`"
                     primary := some (Span.from_spanned name, some "not found")
                     labels := [] }])

/-! ### Command conversion (`convert_command`, `lower.rs` lines 102-194) -/

/-- Embeds `convert_command` (`lower.rs` lines 102-194): lower one upper-IR command.  With zero payload
fields set it emits "command action missing" and returns `Err`; with more
than one set it emits "too many command actions" labelling every set
field's span but then FALLS THROUGH (no early return in the source) and
still builds a `Command` from the first set field. -/
def convert_command (command : Spanned upper.Command) (ctx : Context) :
    Res index.Command × Context :=
  let span := Span.from_spanned command
  let c := command.val
  let count :=
    (if c.pyro1.isSome then 1 else 0) +
    (if c.pyro2.isSome then 1 else 0) +
    (if c.pyro3.isSome then 1 else 0) +
    (if c.data_rate.isSome then 1 else 0) +
    (if c.beacon.isSome then 1 else 0)
  if count = 0 then
    (.err, ctx ++ [{ level := .error
                     message := "command action missing"
                     primary := some (span, some "you must specify one command action")
                     labels := [] }])
  else
    let ctx :=
      if count > 1 then
        let values : List Span :=
          (match c.pyro1 with | some s => [Span.from_spanned s] | none => []) ++
          (match c.pyro2 with | some s => [Span.from_spanned s] | none => []) ++
          (match c.pyro3 with | some s => [Span.from_spanned s] | none => []) ++
          (match c.data_rate with | some s => [Span.from_spanned s] | none => []) ++
          (match c.beacon with | some s => [Span.from_spanned s] | none => [])
        ctx ++ [{ level := .error
                  message := "too many command actions"
                  primary := some (span,
                    some ("you must specify exactly one command action, not " ++
                      toString values.length))
                  labels := values.map (fun s => (s, some "declared here")) }]
      else ctx
    let object : Res index.CommandObject :=
      match c.pyro1 with
      | some pyro1 => .ok (.Pyro1 pyro1.val)
      | none =>
        match c.pyro2 with
        | some pyro2 => .ok (.Pyro2 pyro2.val)
        | none =>
          match c.pyro3 with
          | some pyro3 => .ok (.Pyro3 pyro3.val)
          | none =>
            match c.data_rate with
            | some data_rate => .ok (.DataRate data_rate.val)
            | none =>
              match c.beacon with
              | some beacon => .ok (.Beacon beacon.val)
              | none => .panic "internal error: entered unreachable code"
    match object with
    | .ok object =>
      (.ok { object := object
             delay := ⟨(c.delay.map (fun d => d.val)).getD 0⟩ }, ctx)
    | .err => (.err, ctx)
    | .panic m => (.panic m, ctx)

/-! ### Check conversion (`convert_check`, `lower.rs` lines 196-400) -/

/-- The message of the unconditional panic on an unmatched
`upper_bound`/`lower_bound` pair (`lower.rs` lines 203-209). -/
def unmatchedBoundMsg : String :=
  "Unmatched bound! if one of `lower_bound` or `higher_bound` is used, both must be set"

/-- The local `enum CheckKind` of `convert_check`. -/
inductive CheckKind where
  | Apogee
  | Altitude
  | Pyro1Continuity
  | Pyro2Continuity
  | Pyro3Continuity
deriving DecidableEq, Repr

/-- The kind-name match of `convert_check` (`lower.rs` lines 262-281);
`none` stands for the fall-through arm that reports an unknown kind. -/
def checkKindOf (check_name : String) : Option CheckKind :=
  match check_name with
  | "apogee" => some .Apogee
  | "altitude" => some .Altitude
  | "pyro1_continuity" => some .Pyro1Continuity
  | "pyro2_continuity" => some .Pyro2Continuity
  | "pyro3_continuity" => some .Pyro3Continuity
  | _ => none

/-- The local `enum CheckCondition` of `convert_check`. -/
inductive CheckCondition where
  | FlagEq : Bool → CheckCondition
  | GreaterThan : F32 → CheckCondition
  | LessThan : F32 → CheckCondition
  /-- fields `upper_bound`, `lower_bound` in this order -/
  | Between : F32 → F32 → CheckCondition
deriving DecidableEq, Repr

/-- The `condition` block of `convert_check` (`lower.rs` lines 293-317):
pick the single present condition, reject a bad flag string, and hit
`unreachable!()` when nothing is present (reachable when the check has no
condition at all, since the zero-count case above only emits). -/
def checkConditionOf (c : upper.Check) (check_name : String) (ctx : Context) :
    Res CheckCondition × Context :=
  match c.greater_than with
  | some gt => (.ok (.GreaterThan gt.val), ctx)
  | none =>
    match c.upper_bound, c.lower_bound with
    | some u, some l => (.ok (.Between u.val l.val), ctx)
    | _, _ =>
      match c.flag with
      | some flag =>
        match flag.val with
        | "set" => (.ok (.FlagEq true), ctx)
        | "unset" => (.ok (.FlagEq false), ctx)
        | _ =>
          (.err, ctx ++ [{ level := .error
                           message := "flag values must be `set` or `unset`"
                           primary := some (Span.from_spanned flag,
                             some ("unknown flag value `" ++ check_name ++ "`"))
                           labels := [] }])
      | none => (.panic "internal error: entered unreachable code", ctx)

/-- The `mismatch_err` closure of `convert_check` (`lower.rs` lines
319-326). -/
def mismatch_err {α : Type} (ctx : Context) (span : Spanned String) (span_msg : String) :
    Res α × Context :=
  (.err, ctx ++ [{ level := .error
                   message := "mismatched check type"
                   primary := some (Span.from_spanned span, some span_msg)
                   labels := [] }])

/-- The kind/condition type-checking match of `convert_check` (`lower.rs`
lines 330-361): only the apogee arm reports a mismatch through
`mismatch_err`; the altitude and continuity arms `panic!()` on a
mismatched shape. -/
def checkDataOf (check_kind : CheckKind) (condition : CheckCondition)
    (checkField : Spanned String) (ctx : Context) : Res index.CheckData × Context :=
  match check_kind with
  | .Apogee =>
    match condition with
    | .FlagEq v => (.ok (.ApogeeFlag ⟨v⟩), ctx)
    | _ => mismatch_err ctx checkField ""
  | .Altitude =>
    match condition with
    | .Between u l => (.ok (.Altitude (.Between u l)), ctx)
    | .GreaterThan v => (.ok (.Altitude (.GreaterThan v)), ctx)
    | .LessThan v => (.ok (.Altitude (.LessThan v)), ctx)
    | .FlagEq _ => (.panic "explicit panic", ctx)
  | .Pyro1Continuity =>
    match condition with
    | .FlagEq v => (.ok (.Pyro1Continuity ⟨v⟩), ctx)
    | _ => (.panic "explicit panic", ctx)
  | .Pyro2Continuity =>
    match condition with
    | .FlagEq v => (.ok (.Pyro2Continuity ⟨v⟩), ctx)
    | _ => (.panic "explicit panic", ctx)
  | .Pyro3Continuity =>
    match condition with
    | .FlagEq v => (.ok (.Pyro3Continuity ⟨v⟩), ctx)
    | _ => (.panic "explicit panic", ctx)

/-- One of the two identical name-resolution matches of `convert_check`
(`lower.rs` lines 363-371): resolve an optional `transition`/`abort`
target through the name table, keeping the spanned name alongside the
index; a failed lookup propagates `Err` out of `convert_check` (the `?`
operator). -/
def resolveOpt (temp : Temp) (o : Option (Spanned String)) (ctx : Context) :
    Res (Option (Nat × Spanned String)) × Context :=
  match o with
  | some state =>
    match temp.get_index state ctx with
    | (.ok i, ctx) => (.ok (some (i, state)), ctx)
    | (.err, ctx) => (.err, ctx)
    | (.panic m, ctx) => (.panic m, ctx)
  | none => (.ok none, ctx)

/-- Embeds `convert_check` (`lower.rs` lines 196-400): lower one upper-IR check.
Stages, in source order: the unmatched-bound panic; the condition count
(zero emits "too many check conditions" and falls through, more than one
emits "too many command actions" — the source's literal message — with
the span list built from `greater_than` twice and `lower_bound`, and
returns `Err`); the kind match; the condition block; kind/condition
type-checking; transition/abort resolution and their mutual-exclusion
error. -/
def convert_check (check : Spanned upper.Check) (temp : Temp) (ctx : Context) :
    Res index.Check × Context :=
  let full_span := Span.from_spanned check
  let c := check.val
  if (c.upper_bound.isSome && c.lower_bound.isNone) ||
     (c.upper_bound.isNone && c.lower_bound.isSome) then
    (.panic unmatchedBoundMsg, ctx)
  else
    let count :=
      (if c.greater_than.isSome then 1 else 0) +
      (if c.upper_bound.isSome && c.lower_bound.isSome then 1 else 0) +
      (if c.flag.isSome then 1 else 0)
    let ctx :=
      if count = 0 then
        ctx ++ [{ level := .error
                  message := "too many check conditions"
                  primary := some (full_span,
                    some "you must specify one check condition per check")
                  labels := [] }]
      else ctx
    if count > 1 then
      -- NOTE: the second span source is `(&check.greater_than, &check.lower_bound)`
      -- in `lower.rs` line 231 — `greater_than`'s span is collected again
      -- where `upper_bound`'s was evidently intended.
      let spans : List Span :=
        (match c.greater_than with | some gt => [Span.from_spanned gt] | none => []) ++
        (match c.greater_than, c.lower_bound with
         | some u, some l => [Span.from_spanned u, Span.from_spanned l]
         | _, _ => []) ++
        (match c.flag with | some flag => [Span.from_spanned flag] | none => [])
      (.err, ctx ++ [{ level := .error
                       message := "too many command actions"
                       primary := some (full_span,
                         some ("you must specify exactly one check condition, not " ++
                           toString spans.length))
                       labels := spans.map (fun s => (s, some "declared here")) }])
    else
      let check_name := c.check.val
      match checkKindOf check_name with
      | none =>
        (.err, ctx ++
          [{ level := .error
             message := "no check with name `" ++ check_name ++ "` exists"
             primary := some (full_span, some ("unknown check `" ++ check_name ++ "`"))
             labels := [] },
           { level := .help
             message := "try `apogee`, or `altitude`, or `pyroX_continuity`"
             primary := some (full_span, none)
             labels := [] }])
      | some check_kind =>
        match checkConditionOf c check_name ctx with
        | (.err, ctx) => (.err, ctx)
        | (.panic m, ctx) => (.panic m, ctx)
        | (.ok condition, ctx) =>
          match checkDataOf check_kind condition c.check ctx with
          | (.err, ctx) => (.err, ctx)
          | (.panic m, ctx) => (.panic m, ctx)
          | (.ok data, ctx) =>
            match resolveOpt temp c.transition ctx with
            | (.err, ctx) => (.err, ctx)
            | (.panic m, ctx) => (.panic m, ctx)
            | (.ok transition, ctx) =>
              match resolveOpt temp c.abort ctx with
              | (.err, ctx) => (.err, ctx)
              | (.panic m, ctx) => (.panic m, ctx)
              | (.ok abort, ctx) =>
                match transition, abort with
                | some t, none => (.ok ⟨data, some (.Transition t.1)⟩, ctx)
                | none, some a => (.ok ⟨data, some (.Abort a.1)⟩, ctx)
                | none, none => (.ok ⟨data, none⟩, ctx)
                | some t0, some a0 =>
                  -- swap a and t so that t is always first
                  let ta := if t0.2.start > a0.2.start then (a0, t0) else (t0, a0)
                  let s1 := Span.from_spanned ta.1.2
                  let s2 := Span.from_spanned ta.2.2
                  (.err, ctx ++
                    [{ level := .error
                       message := "abort and transition cannot be active in the same check"
                       primary := some (s1, none)
                       labels := [(s2, some "second action declared here")] },
                     { level := .help
                       message := "remove either `abort` or `transition`"
                       primary := none
                       labels := [(s1, none), (s2, none)] }])

/-! ### Document lowering (`verify`, `lower.rs` lines 46-100) -/

/-- The fatal zero-state diagnostic (`lower.rs` lines 49-56). -/
def statesMissingDiag (span : Span) : Diagnostic :=
  { level := .error
    message := "states missing"
    primary := some (span, some "you need to have at least one state")
    labels := [] }

/-- The fatal over-capacity diagnostic (`lower.rs` lines 57-66; the label
keeps the source's spelling "maxinum"). -/
def tooManyStatesDiag (span : Span) (maxStates : Nat) : Diagnostic :=
  { level := .error
    message := "too many states"
    primary := some (span,
      some ("the maxinum number of states is " ++ toString maxStates))
    labels := [] }

/-- The inner check loop of `verify` (`lower.rs` lines 85-88): convert
each check in order, pushing results; the `?` operator aborts the whole
pass on the first failure. -/
def convertChecks (temp : Temp) :
    List (Spanned upper.Check) → Context → Res (List index.Check) × Context
  | [], ctx => (.ok [], ctx)
  | c :: rest, ctx =>
    match convert_check c temp ctx with
    | (.ok ch, ctx) =>
      match convertChecks temp rest ctx with
      | (.ok l, ctx) => (.ok (ch :: l), ctx)
      | (.err, ctx) => (.err, ctx)
      | (.panic m, ctx) => (.panic m, ctx)
    | (.err, ctx) => (.err, ctx)
    | (.panic m, ctx) => (.panic m, ctx)

/-- The inner command loop of `verify` (`lower.rs` lines 90-93). -/
def convertCommands :
    List (Spanned upper.Command) → Context → Res (List index.Command) × Context
  | [], ctx => (.ok [], ctx)
  | c :: rest, ctx =>
    match convert_command c ctx with
    | (.ok cmd, ctx) =>
      match convertCommands rest ctx with
      | (.ok l, ctx) => (.ok (cmd :: l), ctx)
      | (.err, ctx) => (.err, ctx)
      | (.panic m, ctx) => (.panic m, ctx)
    | (.err, ctx) => (.err, ctx)
    | (.panic m, ctx) => (.panic m, ctx)

/-- The outer state loop of `verify` (`lower.rs` lines 84-94): for each
state, all its checks and then all its commands are converted into a
lower-IR `State` (whose `timeout` stays `None`, the filler from
`State::new(Vec::new(), Vec::new(), None)`). -/
def convertStates (temp : Temp) :
    List (Spanned upper.State) → Context → Res (List index.State) × Context
  | [], ctx => (.ok [], ctx)
  | s :: rest, ctx =>
    match convertChecks temp s.val.checks ctx with
    | (.ok checks, ctx) =>
      match convertCommands s.val.commands ctx with
      | (.ok commands, ctx) =>
        match convertStates temp rest ctx with
        | (.ok l, ctx) => (.ok (⟨checks, commands, none⟩ :: l), ctx)
        | (.err, ctx) => (.err, ctx)
        | (.panic m, ctx) => (.panic m, ctx)
      | (.err, ctx) => (.err, ctx)
      | (.panic m, ctx) => (.panic m, ctx)
    | (.err, ctx) => (.err, ctx)
    | (.panic m, ctx) => (.panic m, ctx)

/-- The default-state resolution of `verify` (`lower.rs` lines 78-82,
the `map_or_else` closures): index 0 when no default is named,
`Temp::get_index` otherwise; it runs before the per-state loop and a
resolution failure propagates immediately through `?`. -/
def resolveDefault (mid : upper.ConfigFile) (temp : Temp) (ctx : Context) :
    Res Nat × Context :=
  match mid.default_state with
  | none => (.ok 0, ctx)
  | some name => temp.get_index name ctx

/-- Continues `verify` after the gate: resolve the default, then run the
per-state loop and assemble the lower-IR config file. -/
def verifyBody (mid : upper.ConfigFile) (ctx : Context) :
    Res index.ConfigFile × Context :=
  match resolveDefault mid (Temp.new mid.states.val) ctx with
  | (.ok default_state, ctx) =>
    match convertStates (Temp.new mid.states.val) mid.states.val ctx with
    | (.ok states, ctx) => (.ok ⟨default_state, states⟩, ctx)
    | (.err, ctx) => (.err, ctx)
    | (.panic m, ctx) => (.panic m, ctx)
  | (.err, ctx) => (.err, ctx)
  | (.panic m, ctx) => (.panic m, ctx)

/-- Embeds `verify` (`lower.rs` lines 47-100), the public lowering entry point:
the fatal state-count gate (zero states, more than `MAX_STATES` states —
each emits one diagnostic and returns `Err` immediately), then
`verifyBody`.  `maxStates` stands for the external constant
`common::MAX_STATES`. -/
def verify (maxStates : Nat) (mid : upper.ConfigFile) (ctx : Context) :
    Res index.ConfigFile × Context :=
  let span := Span.from_spanned mid.states
  if mid.states.val.isEmpty then
    (.err, ctx ++ [statesMissingDiag span])
  else if mid.states.val.length > maxStates then
    (.err, ctx ++ [tooManyStatesDiag span maxStates])
  else
    verifyBody mid ctx

/-! ### Concrete documents, checks and commands used by the witnesses
and counterexamples -/

/-- Two trivial states named A and B with `default_state = "B"`. -/
def c1doc : upper.ConfigFile :=
  ⟨some ⟨13, 14, "B"⟩,
   ⟨15, 16, [⟨1, 2, ⟨⟨3, 4, "A"⟩, none, [], []⟩⟩,
             ⟨5, 6, ⟨⟨7, 8, "B"⟩, none, [], []⟩⟩]⟩⟩

/-- What `c1doc` lowers to: default index 1 (B is declared second). -/
def c1cfg : index.ConfigFile :=
  ⟨1, [⟨[], [], none⟩, ⟨[], [], none⟩]⟩

/-- Zero states declared. -/
def c2empty : upper.ConfigFile := ⟨none, ⟨1, 2, []⟩⟩

/-- Three trivial states (one more than the witness capacity 2). -/
def c2over : upper.ConfigFile :=
  ⟨none, ⟨1, 2, [⟨3, 4, ⟨⟨5, 6, "A"⟩, none, [], []⟩⟩,
                 ⟨7, 8, ⟨⟨9, 10, "B"⟩, none, [], []⟩⟩,
                 ⟨11, 12, ⟨⟨13, 14, "C"⟩, none, [], []⟩⟩]⟩⟩

/-- Exactly two trivial states (the witness capacity boundary). -/
def c2exact : upper.ConfigFile :=
  ⟨none, ⟨1, 2, [⟨3, 4, ⟨⟨5, 6, "A"⟩, none, [], []⟩⟩,
                 ⟨7, 8, ⟨⟨9, 10, "B"⟩, none, [], []⟩⟩]⟩⟩

/-- A check carrying only an `upper_bound`. -/
def c10check : Spanned upper.Check :=
  ⟨1, 2, ⟨⟨3, 4, "chk"⟩, ⟨5, 6, "altitude"⟩, none, none, none,
          some ⟨7, 8, 0⟩, none, none⟩⟩

/-- One state whose single check is `c10check`. -/
def c10doc : upper.ConfigFile :=
  ⟨none, ⟨9, 10, [⟨11, 12, ⟨⟨13, 14, "S"⟩, none, [c10check], []⟩⟩]⟩⟩

/-- An altitude check with both `transition = "L"` (span 40-41) and
`abort = "G"` (span 35-36). -/
def c6check : Spanned upper.Check :=
  ⟨1, 2, ⟨⟨3, 4, "chk"⟩, ⟨5, 6, "altitude"⟩, some ⟨40, 41, "L"⟩,
          some ⟨35, 36, "G"⟩, some ⟨11, 12, 100⟩, none, none, none⟩⟩

/-- A name table declaring G (index 0) and L (index 1). -/
def c6temp : Temp :=
  Temp.new [⟨7, 8, ⟨⟨9, 10, "G"⟩, none, [], []⟩⟩,
            ⟨30, 31, ⟨⟨32, 33, "L"⟩, none, [], []⟩⟩]

/-- An altitude check with no condition fields at all. -/
def c3check : Spanned upper.Check :=
  ⟨1, 2, ⟨⟨3, 4, "NoCond"⟩, ⟨5, 6, "altitude"⟩, none, none,
          none, none, none, none⟩⟩

/-- A check with all of `greater_than` (span 7-8), `upper_bound`
(span 9-10), `lower_bound` (span 11-12) and `flag` (span 13-14) set. -/
def c4check : Spanned upper.Check :=
  ⟨1, 2, ⟨⟨3, 4, "Check"⟩, ⟨5, 6, "pyro1_continuity"⟩, none, none,
          some ⟨7, 8, 100⟩, some ⟨9, 10, 0⟩, some ⟨11, 12, (1 : Rat)/2⟩,
          some ⟨13, 14, "set"⟩⟩⟩

/-- A command with no payload field set. -/
def c5cmd0 : Spanned upper.Command :=
  ⟨1, 2, ⟨none, none, none, none, none, none⟩⟩

/-- A command with both `pyro1` (span 11-12) and `pyro2` (span 13-14)
set. -/
def c5cmd2 : Spanned upper.Command :=
  ⟨10, 20, ⟨some ⟨11, 12, true⟩, some ⟨13, 14, true⟩, none, none, none, none⟩⟩

/-- A `pyro1_continuity` check carrying a numeric `greater_than`
condition. -/
def c9pyro : Spanned upper.Check :=
  ⟨1, 2, ⟨⟨3, 4, "C"⟩, ⟨5, 6, "pyro1_continuity"⟩, none, none,
          some ⟨7, 8, 100⟩, none, none, none⟩⟩

/-- An `apogee` check carrying a numeric `greater_than` condition. -/
def c9apogee : Spanned upper.Check :=
  ⟨1, 2, ⟨⟨3, 4, "C"⟩, ⟨5, 6, "apogee"⟩, none, none,
          some ⟨7, 8, 100⟩, none, none, none⟩⟩

/-- An `altitude` check carrying a flag condition. -/
def c9alt : Spanned upper.Check :=
  ⟨1, 2, ⟨⟨3, 4, "C"⟩, ⟨5, 6, "altitude"⟩, none, none,
          none, none, none, some ⟨7, 8, "set"⟩⟩⟩

/-- Holds when `sub` occurs as a contiguous substring of `s`. -/
def strContains (s sub : String) : Prop :=
  sub.data <:+: s.data

instance (s sub : String) : Decidable (strContains s sub) :=
  inferInstanceAs (Decidable (_ <:+: _))

/-- Zero states, with `default_state = "DoesNotExist"`. -/
def c7cex : upper.ConfigFile := ⟨some ⟨1, 2, "DoesNotExist"⟩, ⟨3, 4, []⟩⟩

/-- One declared state `PowerOn`, `default_state = "DoesNotExist"`
(the spec's Example 4). -/
def c7doc : upper.ConfigFile :=
  ⟨some ⟨1, 2, "DoesNotExist"⟩,
   ⟨3, 4, [⟨5, 6, ⟨⟨7, 8, "PowerOn"⟩, none, [], []⟩⟩]⟩⟩

/-- First check of the counterexample: dangles on `transition = "Nope"`. -/
def c8chk1 : Spanned upper.Check :=
  ⟨1, 2, ⟨⟨3, 4, "c1"⟩, ⟨5, 6, "altitude"⟩, some ⟨50, 51, "Nope"⟩, none,
          some ⟨7, 8, 100⟩, none, none, none⟩⟩

/-- Second, independent defect: dangles on `transition = "Alsono"`. -/
def c8chk2 : Spanned upper.Check :=
  ⟨11, 12, ⟨⟨13, 14, "c2"⟩, ⟨15, 16, "altitude"⟩, some ⟨60, 61, "Alsono"⟩, none,
            some ⟨17, 18, 100⟩, none, none, none⟩⟩

/-- One state carrying both defective checks. -/
def c8doc : upper.ConfigFile :=
  ⟨none, ⟨19, 20, [⟨21, 22, ⟨⟨23, 24, "S"⟩, none, [c8chk1, c8chk2], []⟩⟩]⟩⟩

/-- A command with `pyro1` (span 31-32) and `pyro2` (span 33-34) both
set. -/
def c8cmd : Spanned upper.Command :=
  ⟨30, 40, ⟨some ⟨31, 32, true⟩, some ⟨33, 34, false⟩, none, none, none, none⟩⟩

/-! ### Properties of the name table -/

/-- Any index returned by `tempFind` is a declaration position of the
looked-up name (offset by the running index `i`). -/
theorem tempFind_some (sts : List (Spanned upper.State)) :
    ∀ (i : Nat) (n : String) (v : Nat), tempFind sts i n = some v →
      ∃ j s, j < sts.length ∧ v = i + j ∧ sts[j]? = some s ∧ s.val.name.val = n := by
  induction sts with
  | nil => intro i n v h; simp [tempFind] at h
  | cons s rest ih =>
    intro i n v h
    unfold tempFind at h
    rcases h' : tempFind rest (i + 1) n with _ | w
    · rw [h'] at h
      by_cases hn : s.val.name.val = n
      · rw [if_pos hn] at h
        injection h with h
        subst h
        exact ⟨0, s, by simp, by omega, by simp, hn⟩
      · rw [if_neg hn] at h
        exact absurd h (by simp)
    · rw [h'] at h
      injection h with h
      subst h
      obtain ⟨j, s', hj, hv, hget, hname⟩ := ih (i + 1) n w h'
      refine ⟨j + 1, s', by simp; omega, by omega, ?_, hname⟩
      simpa using hget

/-- With pairwise-distinct state names, the index found for a name is the
unique declaration position of that name. -/
theorem tempFind_unique (sts : List (Spanned upper.State)) (n : String) (v : Nat)
    (hn : (sts.map (fun s => s.val.name.val)).Nodup)
    (h : tempFind sts 0 n = some v) :
    ∀ (j : Nat) (s : Spanned upper.State), sts[j]? = some s → s.val.name.val = n → j = v := by
  intro j s hj hs
  obtain ⟨jv, sv, hjv, hv, hgv, hnv⟩ := tempFind_some sts 0 n v h
  have hv' : v = jv := by omega
  subst hv'
  have hjlen : j < sts.length := by
    rcases List.getElem?_eq_some.mp hj with ⟨hlt, _⟩
    exact hlt
  have h1 : (sts.map (fun s => s.val.name.val))[j]? = some n := by
    rw [List.getElem?_map, hj]
    simp [hs]
  have h2 : (sts.map (fun s => s.val.name.val))[v]? = some n := by
    rw [List.getElem?_map, hgv]
    simp [hnv]
  exact List.getElem?_inj (by simpa using hjlen) hn (h1.trans h2.symm)

/-! ### Shape lemmas for successful lowering -/

/-- A successful `verify` run got past the state-count gate into
`verifyBody`. -/
theorem verify_ok_body {maxStates : Nat} {mid : upper.ConfigFile} {ctx ctx' : Context}
    {cfg : index.ConfigFile}
    (h : verify maxStates mid ctx = (.ok cfg, ctx')) :
    verifyBody mid ctx = (.ok cfg, ctx') := by
  unfold verify at h
  split at h
  · simp at h
  · split at h
    · simp at h
    · exact h

/-- A successful `verifyBody` run fixes the default-state index: 0 when no
default is named, the name-table lookup result otherwise. -/
theorem verifyBody_ok_default {mid : upper.ConfigFile} {ctx ctx' : Context}
    {cfg : index.ConfigFile}
    (h : verifyBody mid ctx = (.ok cfg, ctx')) :
    (mid.default_state = none → cfg.default_state = 0) ∧
    (∀ name : Spanned String, mid.default_state = some name →
      (Temp.new mid.states.val).find name.val = some cfg.default_state) := by
  unfold verifyBody at h
  rcases hr : resolveDefault mid (Temp.new mid.states.val) ctx with ⟨r, ctx2⟩
  rw [hr] at h
  rcases r with d | _ | m
  · dsimp only at h
    rcases hcs : convertStates (Temp.new mid.states.val) mid.states.val ctx2 with ⟨r2, ctx3⟩
    rw [hcs] at h
    rcases r2 with sts | _ | m <;> simp at h
    obtain ⟨hcfg, hctx⟩ := h
    subst hcfg
    unfold resolveDefault at hr
    rcases hd : mid.default_state with _ | name <;> rw [hd] at hr <;> dsimp only at hr
    · simp only [Prod.mk.injEq] at hr
      obtain ⟨h0, -⟩ := hr
      injection h0 with h0
      constructor
      · intro _
        simp [← h0]
      · intro nm h'
        cases h'
    · constructor
      · intro h'
        cases h'
      · intro nm h'
        injection h' with h''
        subst h''
        unfold Temp.get_index at hr
        rcases hf : (Temp.new mid.states.val).find name.val with _ | v <;> rw [hf] at hr <;>
          simp at hr
        simp [hf, hr.1]
  · simp at h
  · simp at h

/-! ### C1: the default-state index of a successful lowering -/

/-- C1: for every document that lowers successfully, the lower IR's
`default_state` index is 0 when no explicit `default_state` is named, and
otherwise is the index the name table associates to the named state —
a declaration position of that state name (the position in declaration
order; unique whenever state names are pairwise distinct). -/
theorem lower_default_state_index
    (maxStates : Nat) (mid : upper.ConfigFile) (ctx ctx' : Context)
    (cfg : index.ConfigFile)
    (h : verify maxStates mid ctx = (.ok cfg, ctx')) :
    (mid.default_state = none → cfg.default_state = 0) ∧
    (∀ name : Spanned String, mid.default_state = some name →
      (Temp.new mid.states.val).find name.val = some cfg.default_state ∧
      (∃ s, mid.states.val[cfg.default_state]? = some s ∧
        s.val.name.val = name.val) ∧
      ((mid.states.val.map (fun s => s.val.name.val)).Nodup →
        ∀ (j : Nat) (s : Spanned upper.State), mid.states.val[j]? = some s →
          s.val.name.val = name.val → j = cfg.default_state)) := by
  have hb := verifyBody_ok_default (verify_ok_body h)
  refine ⟨hb.1, fun name hn => ?_⟩
  have hf := hb.2 name hn
  have hf' : tempFind mid.states.val 0 name.val = some cfg.default_state := hf
  obtain ⟨j, s, hj, hv, hget, hname⟩ := tempFind_some _ 0 _ _ hf'
  refine ⟨hf, ⟨s, ?_, hname⟩, fun hnd => tempFind_unique _ _ _ hnd hf'⟩
  rw [hv]
  simpa using hget

/-- Witness for C1 at `c1doc`. -/
theorem lower_default_state_index_witness :
    verify 16 c1doc [] = (.ok c1cfg, []) ∧
    (Temp.new c1doc.states.val).find "B" = some c1cfg.default_state :=
  ⟨by rfl,
   ((lower_default_state_index 16 c1doc [] [] c1cfg (by rfl)).2 ⟨13, 14, "B"⟩ rfl).1⟩

/-! ### C2: the state-count gate -/

/-- C2: lowering a document with zero declared states fails fatally with
the zero-state error (one diagnostic, message "states missing", nothing
further processed); more than `MAX_STATES` states fails fatally with the
"too many states" error; exactly `MAX_STATES` states passes the gate
(lowering proceeds to `verifyBody`). -/
theorem lower_state_count_gate
    (maxStates : Nat) (mid : upper.ConfigFile) (ctx : Context) :
    (mid.states.val = [] →
      verify maxStates mid ctx =
        (.err, ctx ++ [statesMissingDiag (Span.from_spanned mid.states)])) ∧
    (mid.states.val.length > maxStates →
      verify maxStates mid ctx =
        (.err, ctx ++ [tooManyStatesDiag (Span.from_spanned mid.states) maxStates])) ∧
    (mid.states.val.length = maxStates → 0 < maxStates →
      verify maxStates mid ctx = verifyBody mid ctx) := by
  refine ⟨fun h => ?_, fun h => ?_, fun h hpos => ?_⟩
  · simp [verify, h]
  · have hne : mid.states.val ≠ [] := by
      intro e
      rw [e] at h
      simp at h
    simp [verify, List.isEmpty_iff, hne, h]
  · have hne : mid.states.val ≠ [] := by
      intro e
      rw [e] at h
      simp at h
      omega
    simp [verify, List.isEmpty_iff, hne, h]

/-- Witness for C2 with `MAX_STATES = 2`: zero states fail, three fail,
exactly two pass the gate. -/
theorem lower_state_count_gate_witness :
    verify 2 c2empty [] =
      (.err, [statesMissingDiag (Span.from_spanned c2empty.states)]) ∧
    verify 2 c2over [] =
      (.err, [tooManyStatesDiag (Span.from_spanned c2over.states) 2]) ∧
    verify 2 c2exact [] = verifyBody c2exact [] :=
  ⟨(lower_state_count_gate 2 c2empty []).1 rfl,
   (lower_state_count_gate 2 c2over []).2.1 (by decide),
   (lower_state_count_gate 2 c2exact []).2.2 (by decide) (by decide)⟩

/-! ### C10: the unmatched-bound panic -/

/-- C10: a check with exactly one of `upper_bound`/`lower_bound` present
makes `convert_check` panic with the "Unmatched bound" message, recording
no diagnostic; the panic is reachable from the public lowering entry
point `verify` (a document whose first state's first check has an
unmatched bound panics the whole lowering with the context unchanged). -/
theorem convert_check_unmatched_bound_panics
    (check : Spanned upper.Check) (ctx : Context)
    (maxStates : Nat) (mid : upper.ConfigFile) (st : Spanned upper.State)
    (rest : List (Spanned upper.State)) (crest : List (Spanned upper.Check))
    (h : ((check.val.upper_bound.isSome && check.val.lower_bound.isNone) ||
          (check.val.upper_bound.isNone && check.val.lower_bound.isSome)) = true) :
    (∀ temp : Temp, convert_check check temp ctx = (.panic unmatchedBoundMsg, ctx)) ∧
    (mid.states.val = st :: rest → mid.states.val.length ≤ maxStates →
     mid.default_state = none → st.val.checks = check :: crest →
     verify maxStates mid ctx = (.panic unmatchedBoundMsg, ctx)) := by
  have hpanic : ∀ temp : Temp, convert_check check temp ctx = (.panic unmatchedBoundMsg, ctx) := by
    intro temp
    unfold convert_check
    rw [if_pos h]
  refine ⟨hpanic, fun hs hlen hd hc => ?_⟩
  have hcs : ∀ T : Temp, convertStates T mid.states.val ctx = (.panic unmatchedBoundMsg, ctx) := by
    intro T
    have hcc : convertChecks T st.val.checks ctx = (.panic unmatchedBoundMsg, ctx) := by
      rw [hc]
      unfold convertChecks
      rw [hpanic T]
    rw [hs]
    unfold convertStates
    rw [hcc]
  have hr : resolveDefault mid (Temp.new mid.states.val) ctx = (.ok 0, ctx) := by
    unfold resolveDefault
    rw [hd]
  have hne : mid.states.val ≠ [] := by rw [hs]; simp
  have hnot : ¬ (mid.states.val.length > maxStates) := by omega
  simp [verify, List.isEmpty_iff, hne, hnot, verifyBody, hr, hcs]

/-- Witness for C10: the panic fires both from `convert_check` directly
and through `verify`. -/
theorem convert_check_unmatched_bound_panics_witness :
    convert_check c10check (Temp.new []) [] = (.panic unmatchedBoundMsg, []) ∧
    verify 16 c10doc [] = (.panic unmatchedBoundMsg, []) := by
  have h := convert_check_unmatched_bound_panics c10check [] 16 c10doc
    ⟨11, 12, ⟨⟨13, 14, "S"⟩, none, [c10check], []⟩⟩ [] [] (by decide)
  exact ⟨h.1 (Temp.new []), h.2 rfl (by decide) rfl rfl⟩

/-! ### C6: transition/abort mutual exclusion -/

/-- Resolving a present name either fails or yields that very name with
its looked-up index, leaving the context unchanged. -/
theorem resolveOpt_some_ok {temp : Temp} {x : Spanned String} {ctx ctx' : Context}
    {r : Option (Nat × Spanned String)}
    (h : resolveOpt temp (some x) ctx = (.ok r, ctx')) :
    ∃ i, r = some (i, x) ∧ ctx' = ctx ∧ temp.find x.val = some i := by
  unfold resolveOpt Temp.get_index at h
  dsimp only at h
  rcases hf : temp.find x.val with _ | v <;> rw [hf] at h <;> dsimp only at h
  · simp at h
  · simp at h
    exact ⟨v, h.1.symm, h.2.symm, rfl⟩

/-- C6: a check with both a `transition` and an `abort` target never
lowers successfully, whether or not either name resolves; and when both
names resolve (shown on the reachable shape: an altitude check with a
single `greater_than` condition), the conflict error cites both spans
with the earlier-starting span first. -/
theorem check_transition_abort_conflict
    (check : Spanned upper.Check) (temp : Temp) (ctx : Context)
    (t a : Spanned String)
    (ht : check.val.transition = some t) (ha : check.val.abort = some a) :
    (convert_check check temp ctx).1.isOk = false ∧
    (∀ (g : Spanned F32) (ti ai : Nat),
      check.val.greater_than = some g → check.val.upper_bound = none →
      check.val.lower_bound = none → check.val.flag = none →
      check.val.check.val = "altitude" →
      temp.find t.val = some ti → temp.find a.val = some ai →
      convert_check check temp ctx = (.err, ctx ++
        [{ level := .error
           message := "abort and transition cannot be active in the same check"
           primary := some (Span.from_spanned (if t.start > a.start then a else t), none)
           labels := [(Span.from_spanned (if t.start > a.start then t else a),
             some "second action declared here")] },
         { level := .help
           message := "remove either `abort` or `transition`"
           primary := none
           labels := [(Span.from_spanned (if t.start > a.start then a else t), none),
                      (Span.from_spanned (if t.start > a.start then t else a), none)] }]) ∧
      (if t.start > a.start then a else t).start ≤
        (if t.start > a.start then t else a).start) := by
  constructor
  · simp only [convert_check]
    repeat' split
    all_goals try rfl
    all_goals rename_i htr hab
    all_goals first
      | (rw [ht] at htr
         obtain ⟨i, hi, -, -⟩ := resolveOpt_some_ok htr
         cases hi
         done)
      | (rw [ha] at hab
         obtain ⟨i, hi, -, -⟩ := resolveOpt_some_ok hab
         cases hi
         done)
  · intro g ti ai hg hub hlb hfl hkind hti hai
    constructor
    · by_cases hc : t.start > a.start <;>
        simp [convert_check, checkKindOf, checkConditionOf, checkDataOf, resolveOpt,
              Temp.get_index, hg, hub, hlb, hfl, hkind, ht, ha, hti, hai, hc]
    · by_cases hc : t.start > a.start <;> simp [hc] <;> omega

/-- Witness for C6 at `c6check`: conversion is not `ok`, and the conflict
error puts the abort span (35-36, the earlier one) first. -/
theorem check_transition_abort_conflict_witness :
    (convert_check c6check c6temp []).1.isOk = false ∧
    convert_check c6check c6temp [] = (.err,
      [{ level := .error
         message := "abort and transition cannot be active in the same check"
         primary := some (⟨35, 36⟩, none)
         labels := [(⟨40, 41⟩, some "second action declared here")] },
       { level := .help
         message := "remove either `abort` or `transition`"
         primary := none
         labels := [(⟨35, 36⟩, none), (⟨40, 41⟩, none)] }]) := by
  have h := check_transition_abort_conflict c6check c6temp []
    ⟨40, 41, "L"⟩ ⟨35, 36, "G"⟩ rfl rfl
  exact ⟨h.1, (h.2 ⟨11, 12, 100⟩ 1 0 rfl rfl rfl rfl rfl (by rfl) (by rfl)).1⟩

/-! ### C3: a check with no condition -/

/-- C3 (against the claim): a check with none of the condition groups
present makes `convert_check` emit a diagnostic whose message is
"too many check conditions" (not "no condition") and then panic at the
`unreachable!()` in the condition block — no `Err` is returned and no
lower-IR check is produced cleanly. -/
theorem convert_check_no_condition_panics :
    convert_check c3check (Temp.new []) [] =
      (.panic "internal error: entered unreachable code",
       [{ level := .error
          message := "too many check conditions"
          primary := some (⟨1, 2⟩, some "you must specify one check condition per check")
          labels := [] }]) := by
  rfl

/-! ### C4: a check with several conditions -/

/-- C4 (against the claim): with all four condition fields set the check
fails, but the emitted diagnostic's message is "too many command actions"
(not "too many conditions") and it labels FOUR spans — `greater_than`
twice and `lower_bound` and `flag` once each — while `upper_bound`'s span
(9-10) is never labelled. -/
theorem convert_check_too_many_conditions_spans :
    convert_check c4check (Temp.new []) [] =
      (.err,
       [{ level := .error
          message := "too many command actions"
          primary := some (⟨1, 2⟩, some "you must specify exactly one check condition, not 4")
          labels := [(⟨7, 8⟩, some "declared here"), (⟨7, 8⟩, some "declared here"),
                     (⟨11, 12⟩, some "declared here"), (⟨13, 14⟩, some "declared here")] }]) ∧
    ((⟨9, 10⟩ : Span), some "declared here") ∉
      [((⟨7, 8⟩ : Span), some "declared here"), (⟨7, 8⟩, some "declared here"),
       (⟨11, 12⟩, some "declared here"), (⟨13, 14⟩, some "declared here")] := by
  exact ⟨by rfl, by decide⟩

/-! ### C5: command payload cardinality -/

/-- C5 (against the claim): zero payload fields fail with "command action
missing" as claimed, but with two fields set `convert_command` emits the
"too many command actions" error labelling both spans and then still
returns `Ok` with a lower-IR `Command` built from the first set field. -/
theorem convert_command_action_count :
    convert_command c5cmd0 [] =
      (.err,
       [{ level := .error
          message := "command action missing"
          primary := some (⟨1, 2⟩, some "you must specify one command action")
          labels := [] }]) ∧
    convert_command c5cmd2 [] =
      (.ok ⟨.Pyro1 true, ⟨0⟩⟩,
       [{ level := .error
          message := "too many command actions"
          primary := some (⟨10, 20⟩, some "you must specify exactly one command action, not 2")
          labels := [(⟨11, 12⟩, some "declared here"), (⟨13, 14⟩, some "declared here")] }]) := by
  exact ⟨by rfl, by rfl⟩

/-! ### C9: kind/condition mismatches -/

/-- C9 (against the claim): only the `apogee` kind reports the
"mismatched check type" diagnostic on an illegal condition shape; a
continuity check with a numeric condition and an altitude check with a
flag condition both panic (`panic!()`) instead of emitting it. -/
theorem check_kind_condition_mismatch :
    convert_check c9pyro (Temp.new []) [] = (.panic "explicit panic", []) ∧
    convert_check c9alt (Temp.new []) [] = (.panic "explicit panic", []) ∧
    convert_check c9apogee (Temp.new []) [] =
      (.err,
       [{ level := .error
          message := "mismatched check type"
          primary := some (⟨5, 6⟩, some "")
          labels := [] }]) := by
  exact ⟨by rfl, by rfl, by rfl⟩

/-! ### C7: dangling references -/

/-- C7 counterexample: a document with no states and the dangling
`default_state = "DoesNotExist"` fails with the state-count error only —
no diagnostic of the run mentions "DoesNotExist", so a dangling
`default_state` does not always produce a reference error naming it. -/
theorem dangling_default_state_counterexample :
    verify 16 c7cex [] = (.err, [statesMissingDiag ⟨3, 4⟩]) ∧
    ¬ strContains (statesMissingDiag ⟨3, 4⟩).message "DoesNotExist" := by
  exact ⟨by rfl, by decide⟩

/-- C7 amended: a `transition`/`abort`/`default_state` name that is
missing from the name table fails resolution with a reference error
whose message contains the exact name (first conjunct:
`Temp::get_index`, the single resolution path used by all three); and a
document that passes the state-count gate and names an undeclared
default state fails lowering with exactly that reference error appended
(second conjunct). -/
theorem dangling_reference_error_names_state
    (temp : Temp) (name : Spanned String) (ctx : Context)
    (maxStates : Nat) (mid : upper.ConfigFile)
    (hfind : temp.find name.val = none) :
    (temp.get_index name ctx = (.err, ctx ++
       [{ level := .error
          message := "state not found `" ++ name.val ++ "`"
          primary := some (Span.from_spanned name, some "not found")
          labels := [] }]) ∧
     strContains ("state not found `" ++ name.val ++ "`") name.val) ∧
    (mid.states.val ≠ [] → mid.states.val.length ≤ maxStates →
     mid.default_state = some name →
     (Temp.new mid.states.val).find name.val = none →
     verify maxStates mid ctx = (.err, ctx ++
       [{ level := .error
          message := "state not found `" ++ name.val ++ "`"
          primary := some (Span.from_spanned name, some "not found")
          labels := [] }])) := by
  constructor
  · constructor
    · unfold Temp.get_index
      rw [hfind]
    · exact ⟨"state not found `".data, "`".data, by simp⟩
  · intro hne hlen hd hfind2
    have hr : resolveDefault mid (Temp.new mid.states.val) ctx =
        (.err, ctx ++
          [{ level := .error
             message := "state not found `" ++ name.val ++ "`"
             primary := some (Span.from_spanned name, some "not found")
             labels := [] }]) := by
      unfold resolveDefault
      rw [hd]
      dsimp only
      unfold Temp.get_index
      rw [hfind2]
    have hnot : ¬ (mid.states.val.length > maxStates) := by omega
    simp [verify, List.isEmpty_iff, hne, hnot, verifyBody, hr]

/-- Witness for the amended C7 at the spec's Example 4. -/
theorem dangling_reference_error_names_state_witness :
    verify 16 c7doc [] = (.err,
      [{ level := .error
         message := "state not found `DoesNotExist`"
         primary := some (⟨1, 2⟩, some "not found")
         labels := [] }]) ∧
    strContains "state not found `DoesNotExist`" "DoesNotExist" := by
  have h := dangling_reference_error_names_state (Temp.new c7doc.states.val)
    ⟨1, 2, "DoesNotExist"⟩ [] 16 c7doc (by rfl)
  exact ⟨h.2 (List.cons_ne_nil _ _) (by decide) rfl (by rfl), h.1.2⟩

/-! ### C8: error accumulation across items -/

/-- C8 counterexample: a document with two independent dangling-reference
defects yields exactly ONE diagnostic — only the first defect is
reported, the second check is never processed. -/
theorem first_defect_stops_lowering_counterexample :
    verify 16 c8doc [] = (.err,
      [{ level := .error
         message := "state not found `Nope`"
         primary := some (⟨50, 51⟩, some "not found")
         labels := [] }]) := by
  rfl

/-- C8 amended: recoverable errors are recorded into the session, but
except for the too-many-command-actions case, a failing item aborts the
rest of the lowering pass.  First conjunct: if converting the first check
of the first state fails, `verify` returns exactly that failure context —
remaining checks, commands and states contribute nothing.  Second
conjunct: a command with two payload fields set has its error recorded
and processing continues (an `Ok` command is still produced). -/
theorem recoverable_error_propagation
    (maxStates : Nat) (mid : upper.ConfigFile) (ctx ctx' : Context)
    (st : Spanned upper.State) (rest : List (Spanned upper.State))
    (c : Spanned upper.Check) (crest : List (Spanned upper.Check))
    (command : Spanned upper.Command) (p q : Spanned Bool)
    (hs : mid.states.val = st :: rest) (hlen : mid.states.val.length ≤ maxStates)
    (hd : mid.default_state = none) (hc : st.val.checks = c :: crest)
    (herr : convert_check c (Temp.new mid.states.val) ctx = (.err, ctx')) :
    verify maxStates mid ctx = (.err, ctx') ∧
    (command.val.pyro1 = some p → command.val.pyro2 = some q →
     command.val.pyro3 = none → command.val.data_rate = none →
     command.val.beacon = none →
     convert_command command ctx =
       (.ok ⟨.Pyro1 p.val, ⟨(command.val.delay.map (fun d => d.val)).getD 0⟩⟩,
        ctx ++
          [{ level := .error
             message := "too many command actions"
             primary := some (Span.from_spanned command,
               some "you must specify exactly one command action, not 2")
             labels := [(Span.from_spanned p, some "declared here"),
                        (Span.from_spanned q, some "declared here")] }])) := by
  constructor
  · have hcc : convertChecks (Temp.new mid.states.val) st.val.checks ctx = (.err, ctx') := by
      rw [hc]
      unfold convertChecks
      rw [herr]
    have hcsall : convertStates (Temp.new mid.states.val) mid.states.val ctx =
        (.err, ctx') := by
      rw [hs] at hcc ⊢
      unfold convertStates
      rw [hcc]
    have hr : resolveDefault mid (Temp.new mid.states.val) ctx = (.ok 0, ctx) := by
      unfold resolveDefault
      rw [hd]
    have hne : mid.states.val ≠ [] := by rw [hs]; simp
    have hnot : ¬ (mid.states.val.length > maxStates) := by omega
    simp [verify, List.isEmpty_iff, hne, hnot, verifyBody, hr, hcsall]
  · intro hp hq h3 hdr hbe
    simp [convert_command, hp, hq, h3, hdr, hbe]
    rfl

/-- Witness for the amended C8: the two-defect document stops after the
first defect, while a double-action command records its error and still
converts. -/
theorem recoverable_error_propagation_witness :
    verify 16 c8doc [] = (.err,
      [{ level := .error
         message := "state not found `Nope`"
         primary := some (⟨50, 51⟩, some "not found")
         labels := [] }]) ∧
    convert_command c8cmd [] =
      (.ok ⟨.Pyro1 true, ⟨0⟩⟩,
       [{ level := .error
          message := "too many command actions"
          primary := some (⟨30, 40⟩, some "you must specify exactly one command action, not 2")
          labels := [(⟨31, 32⟩, some "declared here"), (⟨33, 34⟩, some "declared here")] }]) := by
  have h := recoverable_error_propagation 16 c8doc []
    [{ level := .error
       message := "state not found `Nope`"
       primary := some (⟨50, 51⟩, some "not found")
       labels := [] }]
    ⟨21, 22, ⟨⟨23, 24, "S"⟩, none, [c8chk1, c8chk2], []⟩⟩ []
    c8chk1 [c8chk2] c8cmd ⟨31, 32, true⟩ ⟨33, 34, false⟩
    rfl (by decide) rfl rfl (by rfl)
  exact ⟨h.1, h.2 rfl rfl rfl rfl rfl⟩
